import Mathlib

/-!
Shallow embedding of the Context-Meme-Generator repository.

The repository has two deployment variants of a `MemeGenerator` class:
`src/context_meme.py` (the catalog variant, using the Imgflip template
catalog and the Imgflip captioning endpoint) and `src/random_meme.py`
(the feed variant, using a subreddit feed and a local PIL text overlay).

Modelling conventions:
- Python exceptions are values of `PyExc`; a function whose body can let an
  exception escape returns `Except PyExc _`, while a function whose body
  wraps everything in `try/except` is total.
- The streamed completion API is an oracle `List Message → CompletionOutcome`
  mapping the request messages to either the full list of streamed chunk
  contents (`chunk.choices[0].delta.content` is an `Option String`), a
  stream interrupted by an exception, or an immediately raised exception.
- HTTP responses, the Reddit feed, PIL image decoding and font metrics are
  likewise oracle values supplied in an environment record.
- `random.choice(xs)` is modelled by a natural-number draw `k`, selecting
  element `k % xs.length`, and raising `IndexError` on an empty list.
- Python string methods used by the code are modelled at the character-list
  level: `.strip()` drops whitespace at both ends, `.lower()` is a
  character-wise ASCII `Char.toLower` map, `.replace(c, empty)` is a
  character filter, and `.endswith` is a character-list suffix test.
- Both pipelines additionally return the list of external-call events in
  the order the Python code performs them, so that stage-ordering
  properties are expressible.
-/

/-- A Python exception value; the variants distinguish the error sources
that appear in the code (transport errors from `requests`/`praw`/`groq`,
malformed-response key or decode errors, and `IndexError` from
`random.choice` on an empty sequence). -/
inductive PyExc
  | transport
  | malformedResponse
  | indexError
  | apiError
deriving DecidableEq

/-- One role/content message of a completion request, as built by the
Python code for `client.chat.completions.create`. -/
structure Message where
  role : String
  content : String
deriving DecidableEq

/-- The observable outcome of one streamed completion call:
`chunks cs` is a completed stream whose chunk contents are `cs`
(`none` models a `None` `delta.content`), `chunksThenRaise cs e` is a
stream interrupted by exception `e` after yielding `cs`, and `raise e`
is an exception from the `create` call itself. -/
inductive CompletionOutcome
  | raise (e : PyExc)
  | chunks (cs : List (Option String))
  | chunksThenRaise (cs : List (Option String)) (e : PyExc)

/-- The chunk-accumulation loop `for chunk in completion: s += content or ""`. -/
def concatChunks (cs : List (Option String)) : String :=
  cs.foldl (fun acc c => acc ++ c.getD "") ""

/-- Python `str.strip()`: drop whitespace characters from both ends. -/
def pyStrip (s : String) : String :=
  ⟨((s.data.dropWhile Char.isWhitespace).reverse.dropWhile Char.isWhitespace).reverse⟩

/-- Python `str.endswith(suffix)` for one suffix. -/
def pyEndsWith (s suffix : String) : Bool :=
  List.isSuffixOf suffix.data s.data

/-- Python `str.lower()`, modelled character-wise on the basic latin range. -/
def pyLower (s : String) : String :=
  ⟨s.data.map Char.toLower⟩

/-- Python `s.replace(c, empty string)` for a single-character pattern:
every occurrence of `c` is removed. -/
def pyReplaceRemove (s : String) (c : Char) : String :=
  ⟨s.data.filter (fun a => a != c)⟩

/-- Python truthiness of an optional string (`if not meme_id:`):
`None` and the empty string are falsy. -/
def pyTruthy (o : Option String) : Bool :=
  match o with
  | none => false
  | some s => !s.isEmpty

/-- Python `random.choice` driven by a draw `k`: raises `IndexError` on an
empty sequence, otherwise returns the element at the drawn index. -/
def pyRandomChoice {α : Type} (k : Nat) (xs : List α) : Except PyExc α :=
  match xs[k % xs.length]? with
  | some x => Except.ok x
  | none => Except.error PyExc.indexError

/-- One record of the Imgflip `get_memes` catalog. -/
structure Meme where
  id : String
  url : String
  name : String
deriving DecidableEq

/-- Outcome of the catalog `requests.get` call: the call itself may raise,
or return a response with a status code and a body; `none` as body models a
response on which `response.json()["data"]["memes"]` raises. -/
inductive GetOutcome
  | raise (e : PyExc)
  | resp (status : Nat) (body : Option (List Meme))

/-- Parsed body of the Imgflip `caption_image` response; `url none` models
a JSON body in which `["data"]["url"]` is missing and raises. -/
structure CaptionBody where
  success : Bool
  url : Option String
deriving DecidableEq

/-- Outcome of the captioning `requests.post` call, analogous to
`GetOutcome`: `none` as body models a response whose `response.json()`
raises. -/
inductive PostOutcome
  | raise (e : PyExc)
  | resp (status : Nat) (body : Option CaptionBody)

/-- What `create_meme` prints on its normal returns. -/
inductive CreateMemeResult
  | generated (url : String)
  | errorPrinted
deriving DecidableEq

/-- External-call events, in the order the pipelines perform them. -/
inductive Event
  | topicCall
  | templateFetchCall
  | captionCall
  | captionPostCall
  | redditFetchCall
  | overlayCall
deriving DecidableEq

/-- The system/user messages built by `extract_topic_from_chat` in
`context_meme.py` (the two adjacent string literals concatenated). -/
def ContextMeme.topicMessages (chat_context : String) : List Message :=
  [⟨"system", "Analyze the given conversation and return only a single-word topic (e.g., \x27coding\x27, \x27gym\x27, \x27AI\x27, \x27exams\x27, \x27sleep\x27, etc.) that best represents the discussion."⟩,
   ⟨"user", chat_context⟩]

/-- `MemeGenerator.extract_topic_from_chat` of `context_meme.py`: one
completion call over `topicMessages`; on a completed stream the
concatenated chunks are stripped and lowercased; any exception is caught
and replaced by the literal default topic. -/
def ContextMeme.extract_topic_from_chat (api : List Message → CompletionOutcome)
    (chat_context : String) : String :=
  match api (ContextMeme.topicMessages chat_context) with
  | CompletionOutcome.chunks cs => pyLower (pyStrip (concatChunks cs))
  | CompletionOutcome.chunksThenRaise _ _ => "funny"
  | CompletionOutcome.raise _ => "funny"

/-- `MemeGenerator.fetch_meme_template` of `context_meme.py`: a bare
`requests.get` (no `try`), a `status_code == 200` test, `random.choice`
over the parsed meme list, and an all-`None` triple on any other status.
Exceptions (transport, body parse, empty list) escape. -/
def ContextMeme.fetch_meme_template (o : GetOutcome) (k : Nat) :
    Except PyExc (Option String × Option String × Option String) :=
  match o with
  | GetOutcome.raise e => Except.error e
  | GetOutcome.resp status body =>
    if status = 200 then
      match body with
      | none => Except.error PyExc.malformedResponse
      | some memes =>
        match pyRandomChoice k memes with
        | Except.ok m => Except.ok (some m.id, some m.url, some m.name)
        | Except.error e => Except.error e
    else
      Except.ok (none, none, none)

/-- The single system message built by `generate_meme_caption` in
`context_meme.py`; note it interpolates only the topic, never the
template name. -/
def ContextMeme.captionMessages (topic : String) : List Message :=
  [⟨"system", "You are a meme expert. Generate ONLY a short, funny meme caption for the topic \x27" ++ topic ++ "\x27. DO NOT add any explanations, introductions, or extra text. Just output the caption."⟩]

/-- `MemeGenerator.generate_meme_caption` of `context_meme.py`: one
completion call; the concatenated stream is stripped and all
double-quote characters removed; any exception is caught and replaced
by the fixed default caption. The `meme_name` parameter is accepted but
never used by the body. -/
def ContextMeme.generate_meme_caption (api : List Message → CompletionOutcome)
    (topic : String) (meme_name : Option String) : String :=
  match api (ContextMeme.captionMessages topic) with
  | CompletionOutcome.chunks cs => pyReplaceRemove (pyStrip (concatChunks cs)) '\"'
  | CompletionOutcome.chunksThenRaise _ _ => "Me debugging at 3 AM..."
  | CompletionOutcome.raise _ => "Me debugging at 3 AM..."

/-- `MemeGenerator.create_meme` of `context_meme.py`: a bare
`requests.post` (no `try`); on `status_code == 200` the JSON body is
consulted (a malformed body raises), on a truthy `success` flag the
hosted URL is printed (a missing `data.url` raises), otherwise an error
message is printed. -/
def ContextMeme.create_meme (o : PostOutcome) : Except PyExc CreateMemeResult :=
  match o with
  | PostOutcome.raise e => Except.error e
  | PostOutcome.resp status body =>
    if status = 200 then
      match body with
      | none => Except.error PyExc.malformedResponse
      | some b =>
        if b.success then
          match b.url with
          | some u => Except.ok (CreateMemeResult.generated u)
          | none => Except.error PyExc.malformedResponse
        else
          Except.ok CreateMemeResult.errorPrinted
    else
      Except.ok CreateMemeResult.errorPrinted

/-- External-world inputs of one catalog-variant pipeline run. -/
structure CatalogEnv where
  topicApi : List Message → CompletionOutcome
  templateFetch : GetOutcome
  templateRng : Nat
  captionApi : List Message → CompletionOutcome
  captionPost : PostOutcome

/-- Normal outcomes of the catalog pipeline. -/
inductive CatalogResult
  | templateError
  | completed (topic : String) (caption : String) (r : CreateMemeResult)
deriving DecidableEq

/-- `MemeGenerator.generate_meme_from_chat` of `context_meme.py`, paired
with its external-call trace: extract the topic, fetch a template
(exceptions escape), return after printing an error when the returned id
is falsy, otherwise generate the caption and post it to the captioning
API (exceptions escape). -/
def ContextMeme.generate_meme_from_chat (env : CatalogEnv) (chat_context : String) :
    List Event × Except PyExc CatalogResult :=
  let topic := ContextMeme.extract_topic_from_chat env.topicApi chat_context
  match ContextMeme.fetch_meme_template env.templateFetch env.templateRng with
  | Except.error e => ([Event.topicCall, Event.templateFetchCall], Except.error e)
  | Except.ok (meme_id, _meme_image_url, meme_name) =>
    if pyTruthy meme_id then
      let meme_text := ContextMeme.generate_meme_caption env.captionApi topic meme_name
      match ContextMeme.create_meme env.captionPost with
      | Except.error e =>
        ([Event.topicCall, Event.templateFetchCall, Event.captionCall, Event.captionPostCall],
         Except.error e)
      | Except.ok r =>
        ([Event.topicCall, Event.templateFetchCall, Event.captionCall, Event.captionPostCall],
         Except.ok (CatalogResult.completed topic meme_text r))
    else
      ([Event.topicCall, Event.templateFetchCall], Except.ok CatalogResult.templateError)

/-- The system/user messages built by `extract_topic_from_chat` in
`random_meme.py` (textually the same request as the catalog variant). -/
def RandomMeme.topicMessages (chat_context : String) : List Message :=
  [⟨"system", "Analyze the given conversation and return only a single-word topic (e.g., \x27coding\x27, \x27gym\x27, \x27AI\x27, \x27exams\x27, \x27sleep\x27, etc.) that best represents the discussion."⟩,
   ⟨"user", chat_context⟩]

/-- `MemeGenerator.extract_topic_from_chat` of `random_meme.py`: identical
logic to the catalog variant. -/
def RandomMeme.extract_topic_from_chat (api : List Message → CompletionOutcome)
    (chat_context : String) : String :=
  match api (RandomMeme.topicMessages chat_context) with
  | CompletionOutcome.chunks cs => pyLower (pyStrip (concatChunks cs))
  | CompletionOutcome.chunksThenRaise _ _ => "funny"
  | CompletionOutcome.raise _ => "funny"

/-- The single system message built by `generate_meme_caption` in
`random_meme.py`. -/
def RandomMeme.captionMessages (topic : String) : List Message :=
  [⟨"system", "Generate a funny meme caption about " ++ topic ++ ". Keep it short and witty, under 10 words."⟩]

/-- `MemeGenerator.generate_meme_caption` of `random_meme.py`: one
completion call; the concatenated stream is only stripped (no quote
removal); any exception is caught and replaced by the fixed default
caption of this variant. -/
def RandomMeme.generate_meme_caption (api : List Message → CompletionOutcome)
    (topic : String) : String :=
  match api (RandomMeme.captionMessages topic) with
  | CompletionOutcome.chunks cs => pyStrip (concatChunks cs)
  | CompletionOutcome.chunksThenRaise _ _ => "When life gives you errors, debug them!"
  | CompletionOutcome.raise _ => "When life gives you errors, debug them!"

/-- One post of the subreddit feed, with the two fields the code reads. -/
structure RedditPost where
  stickied : Bool
  url : String
deriving DecidableEq

/-- Outcome of the `subreddit.hot(limit=50)` fetch: the listing call may
raise, or yield the (already bounded) window of posts. -/
inductive FeedOutcome
  | raise (e : PyExc)
  | posts (ps : List RedditPost)

/-- The list-comprehension predicate of `fetch_meme_from_reddit`:
`not post.stickied and post.url.endswith(("jpg", "png"))`. -/
def redditFilter (p : RedditPost) : Bool :=
  !p.stickied && (pyEndsWith p.url "jpg" || pyEndsWith p.url "png")

/-- The candidate pool built by the list comprehension. -/
def redditCandidates (ps : List RedditPost) : List RedditPost :=
  ps.filter redditFilter

/-- `MemeGenerator.fetch_meme_from_reddit` of `random_meme.py`: filter the
feed window, pick one candidate with `random.choice` when the pool is
non-empty, return `None` on an empty pool, and catch any exception of the
whole body, returning `None`. -/
def RandomMeme.fetch_meme_from_reddit (o : FeedOutcome) (k : Nat) : Option String :=
  match o with
  | FeedOutcome.raise _ => none
  | FeedOutcome.posts ps =>
    let memes := redditCandidates ps
    if memes.isEmpty then
      none
    else
      match pyRandomChoice k memes with
      | Except.ok p => some p.url
      | Except.error _ => none

/-- External-world inputs of one `overlay_text_on_image` call: the image
`requests.get` outcome (status code on a completed request), the
`Image.open` outcome (the image size on success), the `ImageFont.truetype`
load, the `draw.textbbox` metrics, and the `img.save`/`img.show` step. -/
structure OverlayEnv where
  httpGet : Except PyExc Nat
  imageOpen : Except PyExc (Int × Int)
  fontLoad : Except PyExc Unit
  textbbox : Except PyExc (Int × Int × Int × Int)
  saveShow : Except PyExc Unit

/-- One `draw.text` invocation: origin, drawn string, fill color. -/
structure DrawCall where
  x : Int
  y : Int
  text : String
  fill : String
deriving DecidableEq

/-- Observable outcome of `overlay_text_on_image`: the non-200 early
return (a printed message), a caught-and-logged exception, or a completed
render with its `draw.text` calls in order. -/
inductive OverlayResult
  | fetchErrorPrinted
  | exceptionLogged
  | rendered (calls : List DrawCall)
deriving DecidableEq

/-- `MemeGenerator.overlay_text_on_image` of `random_meme.py`: download
the image (non-200 prints and returns), decode it, load the font, measure
the caption bounding box, compute the centered-x / bottom-minus-100-y
origin with Python floor division, draw the caption twice in black at
(±2, ±2) offsets and once in white on top, then save and show; every
exception of the body is caught and logged. -/
def RandomMeme.overlay_text_on_image (env : OverlayEnv) (image_url : String)
    (text : String) : OverlayResult :=
  match env.httpGet with
  | Except.error _ => OverlayResult.exceptionLogged
  | Except.ok status =>
    if status != 200 then
      OverlayResult.fetchErrorPrinted
    else
      match env.imageOpen with
      | Except.error _ => OverlayResult.exceptionLogged
      | Except.ok (width, height) =>
        match env.fontLoad with
        | Except.error _ => OverlayResult.exceptionLogged
        | Except.ok _ =>
          match env.textbbox with
          | Except.error _ => OverlayResult.exceptionLogged
          | Except.ok bbox =>
            let text_width := bbox.2.2.1 - bbox.1
            let x := Int.fdiv (width - text_width) 2
            let y := height - 100
            let calls := [DrawCall.mk (x - 2) (y - 2) text "black",
                          DrawCall.mk (x + 2) (y + 2) text "black",
                          DrawCall.mk x y text "white"]
            match env.saveShow with
            | Except.error _ => OverlayResult.exceptionLogged
            | Except.ok _ => OverlayResult.rendered calls

/-- External-world inputs of one feed-variant pipeline run. -/
structure FeedEnv where
  topicApi : List Message → CompletionOutcome
  captionApi : List Message → CompletionOutcome
  feed : FeedOutcome
  feedRng : Nat
  overlay : OverlayEnv

/-- Normal outcomes of the feed pipeline. -/
inductive FeedResult
  | fetchFailed
  | overlaid (url : String) (text : String) (r : OverlayResult)
deriving DecidableEq

/-- `MemeGenerator.generate_meme_from_chat` of `random_meme.py`, paired
with its external-call trace: extract the topic, generate the caption,
then fetch an image URL from the feed; only afterwards is the fetch
result examined, overlaying on success and printing a failure message on
`None`. -/
def RandomMeme.generate_meme_from_chat (env : FeedEnv) (chat_context : String) :
    List Event × Except PyExc FeedResult :=
  let topic := RandomMeme.extract_topic_from_chat env.topicApi chat_context
  let meme_text := RandomMeme.generate_meme_caption env.captionApi topic
  match RandomMeme.fetch_meme_from_reddit env.feed env.feedRng with
  | some url =>
    ([Event.topicCall, Event.captionCall, Event.redditFetchCall, Event.overlayCall],
     Except.ok (FeedResult.overlaid url meme_text
       (RandomMeme.overlay_text_on_image env.overlay url meme_text)))
  | none =>
    ([Event.topicCall, Event.captionCall, Event.redditFetchCall],
     Except.ok FeedResult.fetchFailed)

/-- A completion oracle that always raises from the `create` call. -/
def apiRaise : List Message → CompletionOutcome :=
  fun _ => CompletionOutcome.raise PyExc.apiError

/-- A completion oracle whose stream completes without yielding any chunk. -/
def apiEmptyStream : List Message → CompletionOutcome :=
  fun _ => CompletionOutcome.chunks []

/-- A completion oracle that streams a fragment with an embedded newline. -/
def apiNewlineStream : List Message → CompletionOutcome :=
  fun _ => CompletionOutcome.chunks [some "A\nB"]

/-- A completion oracle that streams a double-quoted caption. -/
def apiQuoteStream : List Message → CompletionOutcome :=
  fun _ => CompletionOutcome.chunks [some "\"bugs\""]

/-- A catalog environment whose template `GET` raises a transport error. -/
def envCatalogRaise : CatalogEnv :=
  ⟨apiEmptyStream, GetOutcome.raise PyExc.transport, 0, apiEmptyStream,
   PostOutcome.raise PyExc.transport⟩

/-- A catalog environment whose template `GET` returns HTTP 500. -/
def envTemplate500 : CatalogEnv :=
  ⟨apiEmptyStream, GetOutcome.resp 500 none, 0, apiEmptyStream,
   PostOutcome.raise PyExc.transport⟩

/-- A 50-post feed window: 10 stickied posts, 20 non-stickied posts whose
URL lacks a `jpg`/`png` suffix, and 20 non-stickied `png` posts. -/
def feed50 : List RedditPost :=
  List.replicate 10 ⟨true, "s.jpg"⟩ ++ List.replicate 20 ⟨false, "g.gif"⟩ ++
    List.replicate 20 ⟨false, "m.png"⟩

theorem toLower_isUpper_eq_false (ch : Char) : (ch.toLower).isUpper = false := by
  rw [Char.toLower]
  split
  · next hcond =>
    obtain ⟨h65, h90⟩ := hcond
    have hvalid : Nat.isValidChar (Char.toNat ch + 32) := Or.inl (by omega)
    rw [Char.ofNat, dif_pos hvalid]
    rw [Char.isUpper]
    apply Bool.and_eq_false_iff.mpr
    right
    simp only [decide_eq_false_iff_not]
    rw [Char.ofNatAux]
    rw [UInt32.le_def, BitVec.le_def]
    simp
    omega
  · next hcond =>
    rw [Char.isUpper]
    apply Bool.and_eq_false_iff.mpr
    by_contra hc
    push_neg at hc
    obtain ⟨ha, hb⟩ := hc
    apply hcond
    constructor
    · exact UInt32.le_toNat_of_le (by norm_num) (by exact_mod_cast (Bool.not_eq_false _).mp ha |> of_decide_eq_true)
    · exact UInt32.toNat_le_of_le (by norm_num) (of_decide_eq_true ((Bool.not_eq_false _).mp hb))

theorem pyLower_any_isUpper (s : String) : ((pyLower s).data.any Char.isUpper) = false := by
  show (s.data.map Char.toLower).any Char.isUpper = false
  rw [List.any_map]
  rw [List.any_eq_false]
  intro x _hx
  simp [Function.comp, toLower_isUpper_eq_false]

theorem pyReplaceRemove_contains_eq_false (s : String) (c : Char) :
    ((pyReplaceRemove s c).data.contains c) = false := by
  show ((s.data.filter (fun a => a != c)).contains c) = false
  by_contra h
  rw [Bool.not_eq_false] at h
  have hmem : c ∈ s.data.filter (fun a => a != c) := by
    simp [List.contains] at h
  have h2 := List.of_mem_filter hmem
  simp at h2

/-- C6: In the local-overlay renderer, for every image size `(w, h)`,
caption text and stubbed font-metrics bounding box `(a, b, c, d)`, the
computed draw origin is `x = (w - text_width)` floor-divided by 2 and
`y = h - 100`, and the caption is drawn exactly three times: at
`(x - 2, y - 2)` and `(x + 2, y + 2)` in the black outline color and at
`(x, y)` in the white fill color, in that order. -/
theorem overlay_draw_geometry (w h a b c d : Int) (u t : String) :
    RandomMeme.overlay_text_on_image
        ⟨Except.ok 200, Except.ok (w, h), Except.ok (), Except.ok (a, b, c, d), Except.ok ()⟩ u t =
      OverlayResult.rendered
        [⟨Int.fdiv (w - (c - a)) 2 - 2, h - 100 - 2, t, "black"⟩,
         ⟨Int.fdiv (w - (c - a)) 2 + 2, h - 100 + 2, t, "black"⟩,
         ⟨Int.fdiv (w - (c - a)) 2, h - 100, t, "white"⟩] := by
  rfl

/-- C10: In the catalog variant, the caption produced by
`generate_meme_caption` does not depend on its `meme_name` argument: for
a fixed topic and the same completion oracle, any two template names
yield the identical caption, because the request messages are built from
the topic alone. -/
theorem catalog_caption_ignores_meme_name (api : List Message → CompletionOutcome)
    (topic : String) (n1 n2 : Option String) :
    ContextMeme.generate_meme_caption api topic n1 =
      ContextMeme.generate_meme_caption api topic n2 := rfl

/-- C9: In both variants, whenever the completion call raises (at the
`create` call or mid-stream), `generate_meme_caption` catches the
exception and returns exactly the deployment-specific fallback caption
literal. -/
theorem caption_exception_fallback :
    (∀ (api : List Message → CompletionOutcome) (topic : String) (n : Option String) (e : PyExc),
        api (ContextMeme.captionMessages topic) = CompletionOutcome.raise e →
        ContextMeme.generate_meme_caption api topic n = "Me debugging at 3 AM...") ∧
    (∀ (api : List Message → CompletionOutcome) (topic : String) (n : Option String)
        (cs : List (Option String)) (e : PyExc),
        api (ContextMeme.captionMessages topic) = CompletionOutcome.chunksThenRaise cs e →
        ContextMeme.generate_meme_caption api topic n = "Me debugging at 3 AM...") ∧
    (∀ (api : List Message → CompletionOutcome) (topic : String) (e : PyExc),
        api (RandomMeme.captionMessages topic) = CompletionOutcome.raise e →
        RandomMeme.generate_meme_caption api topic = "When life gives you errors, debug them!") ∧
    (∀ (api : List Message → CompletionOutcome) (topic : String)
        (cs : List (Option String)) (e : PyExc),
        api (RandomMeme.captionMessages topic) = CompletionOutcome.chunksThenRaise cs e →
        RandomMeme.generate_meme_caption api topic = "When life gives you errors, debug them!") := by
  refine ⟨?_, ?_, ?_, ?_⟩
  · intro api topic n e hapi
    simp [ContextMeme.generate_meme_caption, hapi]
  · intro api topic n cs e hapi
    simp [ContextMeme.generate_meme_caption, hapi]
  · intro api topic e hapi
    simp [RandomMeme.generate_meme_caption, hapi]
  · intro api topic cs e hapi
    simp [RandomMeme.generate_meme_caption, hapi]

theorem caption_exception_fallback_witness :
    ContextMeme.generate_meme_caption apiRaise "coding" none = "Me debugging at 3 AM..." ∧
    RandomMeme.generate_meme_caption apiRaise "coding" = "When life gives you errors, debug them!" :=
  ⟨caption_exception_fallback.1 apiRaise "coding" none PyExc.apiError rfl,
   caption_exception_fallback.2.2.1 apiRaise "coding" PyExc.apiError rfl⟩

/-- C7: In both variants, whenever the completion call raises (at the
`create` call or mid-stream), `extract_topic_from_chat` catches the
exception and returns exactly the literal fallback topic, with no retry;
on a completed stream it returns the concatenation of the streamed
fragments, whitespace-trimmed and lowercased. -/
theorem extract_topic_fallback :
    (∀ (api : List Message → CompletionOutcome) (chat : String) (e : PyExc),
        api (ContextMeme.topicMessages chat) = CompletionOutcome.raise e →
        ContextMeme.extract_topic_from_chat api chat = "funny") ∧
    (∀ (api : List Message → CompletionOutcome) (chat : String)
        (cs : List (Option String)) (e : PyExc),
        api (ContextMeme.topicMessages chat) = CompletionOutcome.chunksThenRaise cs e →
        ContextMeme.extract_topic_from_chat api chat = "funny") ∧
    (∀ (api : List Message → CompletionOutcome) (chat : String) (cs : List (Option String)),
        api (ContextMeme.topicMessages chat) = CompletionOutcome.chunks cs →
        ContextMeme.extract_topic_from_chat api chat = pyLower (pyStrip (concatChunks cs))) ∧
    (∀ (api : List Message → CompletionOutcome) (chat : String) (e : PyExc),
        api (RandomMeme.topicMessages chat) = CompletionOutcome.raise e →
        RandomMeme.extract_topic_from_chat api chat = "funny") ∧
    (∀ (api : List Message → CompletionOutcome) (chat : String)
        (cs : List (Option String)) (e : PyExc),
        api (RandomMeme.topicMessages chat) = CompletionOutcome.chunksThenRaise cs e →
        RandomMeme.extract_topic_from_chat api chat = "funny") ∧
    (∀ (api : List Message → CompletionOutcome) (chat : String) (cs : List (Option String)),
        api (RandomMeme.topicMessages chat) = CompletionOutcome.chunks cs →
        RandomMeme.extract_topic_from_chat api chat = pyLower (pyStrip (concatChunks cs))) := by
  refine ⟨?_, ?_, ?_, ?_, ?_, ?_⟩
  · intro api chat e hapi
    simp [ContextMeme.extract_topic_from_chat, hapi]
  · intro api chat cs e hapi
    simp [ContextMeme.extract_topic_from_chat, hapi]
  · intro api chat cs hapi
    simp [ContextMeme.extract_topic_from_chat, hapi]
  · intro api chat e hapi
    simp [RandomMeme.extract_topic_from_chat, hapi]
  · intro api chat cs e hapi
    simp [RandomMeme.extract_topic_from_chat, hapi]
  · intro api chat cs hapi
    simp [RandomMeme.extract_topic_from_chat, hapi]

theorem extract_topic_fallback_witness :
    ContextMeme.extract_topic_from_chat apiRaise "hello" = "funny" ∧
    RandomMeme.extract_topic_from_chat apiRaise "hello" = "funny" ∧
    ContextMeme.extract_topic_from_chat apiNewlineStream "hello" =
      pyLower (pyStrip (concatChunks [some "A\nB"])) :=
  ⟨extract_topic_fallback.1 apiRaise "hello" PyExc.apiError rfl,
   extract_topic_fallback.2.2.2.1 apiRaise "hello" PyExc.apiError rfl,
   extract_topic_fallback.2.2.1 apiNewlineStream "hello" [some "A\nB"] rfl⟩

/-- C2 counterexample: in the feed variant a streamed caption containing
double quotes is returned with the quotes intact, so the claim that the
returned caption is quote-free in both deployment variants fails on
`random_meme.py`. -/
theorem feed_caption_can_contain_quote :
    ((RandomMeme.generate_meme_caption apiQuoteStream "code").data.contains '\"') = true := by
  decide

/-- C2 (amended): quote-freedom holds in the catalog variant: for every
topic, template name and completion outcome, the caption returned by the
catalog `generate_meme_caption` contains no double-quote character (the
success path removes every quote and the fallback literal has none). The
feed variant does not strip quotes; there only its fixed fallback caption
is quote-free. -/
theorem catalog_caption_quote_free :
    (∀ (api : List Message → CompletionOutcome) (topic : String) (n : Option String),
        ((ContextMeme.generate_meme_caption api topic n).data.contains '\"') = false) ∧
    (("When life gives you errors, debug them!").data.contains '\"') = false := by
  constructor
  · intro api topic n
    cases hapi : api (ContextMeme.captionMessages topic) with
    | chunks cs =>
      simp only [ContextMeme.generate_meme_caption, hapi]
      exact pyReplaceRemove_contains_eq_false _ _
    | chunksThenRaise cs e =>
      simp only [ContextMeme.generate_meme_caption, hapi]
      decide
    | raise e =>
      simp only [ContextMeme.generate_meme_caption, hapi]
      decide
  · decide

/-- C4 counterexample: with a completed but empty stream the returned
topic is the empty string, and a streamed fragment with an embedded
newline survives into the returned topic, so the claimed non-emptiness
and newline-freedom both fail on the code. -/
theorem extract_topic_empty_or_newline :
    ContextMeme.extract_topic_from_chat apiEmptyStream "hi" = "" ∧
    ((ContextMeme.extract_topic_from_chat apiNewlineStream "hi").data.contains '\n') = true := by
  constructor
  · rfl
  · decide

/-- C4 (amended): for every chat input and completion behavior,
`extract_topic_from_chat` returns a fully lowercase string (no uppercase
character) in both variants; non-emptiness and newline-freedom hold for
the exception fallback but not in general, since an empty stream yields
the empty string and embedded newlines of streamed content are
preserved. -/
theorem extract_topic_lowercase :
    ∀ (api : List Message → CompletionOutcome) (chat : String),
      ((ContextMeme.extract_topic_from_chat api chat).data.any Char.isUpper) = false ∧
      ((RandomMeme.extract_topic_from_chat api chat).data.any Char.isUpper) = false := by
  intro api chat
  constructor
  · cases hapi : api (ContextMeme.topicMessages chat) with
    | chunks cs =>
      simp only [ContextMeme.extract_topic_from_chat, hapi]
      exact pyLower_any_isUpper _
    | chunksThenRaise cs e =>
      simp only [ContextMeme.extract_topic_from_chat, hapi]
      decide
    | raise e =>
      simp only [ContextMeme.extract_topic_from_chat, hapi]
      decide
  · cases hapi : api (RandomMeme.topicMessages chat) with
    | chunks cs =>
      simp only [RandomMeme.extract_topic_from_chat, hapi]
      exact pyLower_any_isUpper _
    | chunksThenRaise cs e =>
      simp only [RandomMeme.extract_topic_from_chat, hapi]
      decide
    | raise e =>
      simp only [RandomMeme.extract_topic_from_chat, hapi]
      decide

/-- C8: In the catalog variant, `fetch_meme_template` returns the
all-`None` triple exactly for a completed response whose HTTP status is
not the 200 success status; on a 200 response it returns the id/url/name
triple of the catalog element selected by the random draw. -/
theorem fetch_meme_template_status :
    (∀ (status : Nat) (body : Option (List Meme)) (k : Nat), status ≠ 200 →
        ContextMeme.fetch_meme_template (GetOutcome.resp status body) k =
          Except.ok (none, none, none)) ∧
    (∀ (memes : List Meme) (k : Nat) (m : Meme),
        memes[k % memes.length]? = some m →
        ContextMeme.fetch_meme_template (GetOutcome.resp 200 (some memes)) k =
          Except.ok (some m.id, some m.url, some m.name)) ∧
    (∀ (o : GetOutcome) (k : Nat),
        ContextMeme.fetch_meme_template o k = Except.ok (none, none, none) →
        ∃ status body, o = GetOutcome.resp status body ∧ status ≠ 200) := by
  refine ⟨?_, ?_, ?_⟩
  · intro status body k hs
    simp [ContextMeme.fetch_meme_template, hs]
  · intro memes k m hm
    simp [ContextMeme.fetch_meme_template, pyRandomChoice, hm]
  · intro o k h
    cases o with
    | raise e => simp [ContextMeme.fetch_meme_template] at h
    | resp status body =>
      by_cases hs : status = 200
      · subst hs
        cases body with
        | none => simp [ContextMeme.fetch_meme_template] at h
        | some memes =>
          cases hm : memes[k % memes.length]? with
          | none => simp [ContextMeme.fetch_meme_template, pyRandomChoice, hm] at h
          | some m => simp [ContextMeme.fetch_meme_template, pyRandomChoice, hm] at h
      · exact ⟨status, body, rfl, hs⟩

theorem fetch_meme_template_status_witness :
    ContextMeme.fetch_meme_template (GetOutcome.resp 500 none) 0 =
      Except.ok (none, none, none) ∧
    ContextMeme.fetch_meme_template (GetOutcome.resp 200 (some [⟨"1", "u", "Drake"⟩])) 3 =
      Except.ok (some "1", some "u", some "Drake") :=
  ⟨fetch_meme_template_status.1 500 none 0 (by decide),
   fetch_meme_template_status.2.1 [⟨"1", "u", "Drake"⟩] 3 ⟨"1", "u", "Drake"⟩ rfl⟩

/-- C5: In the feed variant, `fetch_meme_from_reddit` filters out
stickied posts and posts whose URL does not end in a supported raster
suffix; on the 50-post window `feed50` (10 stickied posts and 20
non-stickied posts without a `jpg`/`png` suffix) the candidate pool has
exactly 20 elements; the returned URL is that of the pool element
selected by the random draw; and an empty pool or a raising fetch yields
no image (`none`). -/
theorem reddit_fetch_filter :
    (redditCandidates feed50).length = 20 ∧
    (∀ (e : PyExc) (k : Nat),
        RandomMeme.fetch_meme_from_reddit (FeedOutcome.raise e) k = none) ∧
    (∀ (ps : List RedditPost) (k : Nat), redditCandidates ps = [] →
        RandomMeme.fetch_meme_from_reddit (FeedOutcome.posts ps) k = none) ∧
    (∀ (ps : List RedditPost) (k : Nat) (p : RedditPost),
        (redditCandidates ps)[k % (redditCandidates ps).length]? = some p →
        RandomMeme.fetch_meme_from_reddit (FeedOutcome.posts ps) k = some p.url) := by
  refine ⟨?_, ?_, ?_, ?_⟩
  · decide
  · intro e k
    rfl
  · intro ps k hps
    simp [RandomMeme.fetch_meme_from_reddit, hps]
  · intro ps k p hp
    have hne : (redditCandidates ps).isEmpty = false := by
      cases hcand : redditCandidates ps with
      | nil => simp [hcand] at hp
      | cons a l => rfl
    simp [RandomMeme.fetch_meme_from_reddit, hne, pyRandomChoice, hp]

theorem reddit_fetch_filter_witness :
    RandomMeme.fetch_meme_from_reddit (FeedOutcome.posts [⟨true, "a.jpg"⟩]) 0 = none ∧
    RandomMeme.fetch_meme_from_reddit
        (FeedOutcome.posts [⟨false, "a.jpg"⟩, ⟨true, "b.png"⟩]) 2 = some "a.jpg" :=
  ⟨reddit_fetch_filter.2.2.1 [⟨true, "a.jpg"⟩] 0 (by decide),
   reddit_fetch_filter.2.2.2 [⟨false, "a.jpg"⟩, ⟨true, "b.png"⟩] 2 ⟨false, "a.jpg"⟩ (by decide)⟩

/-- C3: Stage-ordering asymmetry between the variants: in the catalog
variant, when the template fetch returns a `None` id the pipeline prints
an error and returns immediately, with no caption-generation call in its
trace; in the feed variant, the topic-extraction and caption-generation
calls are always performed, in that order, before the feed fetch result
is examined, including runs in which no image is found. -/
theorem stage_ordering_asymmetry :
    (∀ (env : CatalogEnv) (chat : String) (b c : Option String),
        ContextMeme.fetch_meme_template env.templateFetch env.templateRng =
          Except.ok (none, b, c) →
        (ContextMeme.generate_meme_from_chat env chat).fst =
          [Event.topicCall, Event.templateFetchCall] ∧
        Event.captionCall ∉ (ContextMeme.generate_meme_from_chat env chat).fst ∧
        (ContextMeme.generate_meme_from_chat env chat).snd =
          Except.ok CatalogResult.templateError) ∧
    (∀ (env : FeedEnv) (chat : String),
        (RandomMeme.generate_meme_from_chat env chat).fst.take 3 =
          [Event.topicCall, Event.captionCall, Event.redditFetchCall]) := by
  constructor
  · intro env chat b c hfetch
    refine ⟨?_, ?_, ?_⟩ <;>
      simp [ContextMeme.generate_meme_from_chat, hfetch, pyTruthy]
  · intro env chat
    cases hf : RandomMeme.fetch_meme_from_reddit env.feed env.feedRng with
    | some url => simp [RandomMeme.generate_meme_from_chat, hf]
    | none => simp [RandomMeme.generate_meme_from_chat, hf]

theorem stage_ordering_asymmetry_witness :
    (ContextMeme.generate_meme_from_chat envTemplate500 "yo").fst =
      [Event.topicCall, Event.templateFetchCall] ∧
    Event.captionCall ∉ (ContextMeme.generate_meme_from_chat envTemplate500 "yo").fst ∧
    (ContextMeme.generate_meme_from_chat envTemplate500 "yo").snd =
      Except.ok CatalogResult.templateError :=
  stage_ordering_asymmetry.1 envTemplate500 "yo" none none rfl

/-- C1 counterexample: in the catalog variant the template `GET` has no
exception handler, so a transport error escapes
`generate_meme_from_chat` to the top-level caller instead of being
signalled only through printed messages and logs. -/
theorem catalog_pipeline_can_raise :
    (ContextMeme.generate_meme_from_chat envCatalogRaise "hello").snd =
      Except.error PyExc.transport := rfl

/-- C1 (amended): the feed variant never propagates an exception: every
run of its `generate_meme_from_chat` returns normally. In the catalog
variant an exception can propagate, but only from the two unguarded
stages: any propagated exception comes from the template fetch or from
the captioning `POST`; the topic and caption stages never propagate. -/
theorem pipeline_exception_propagation :
    (∀ (env : FeedEnv) (chat : String),
        ∃ r, (RandomMeme.generate_meme_from_chat env chat).snd = Except.ok r) ∧
    (∀ (env : CatalogEnv) (chat : String) (e : PyExc),
        (ContextMeme.generate_meme_from_chat env chat).snd = Except.error e →
        ContextMeme.fetch_meme_template env.templateFetch env.templateRng =
          Except.error e ∨
        ContextMeme.create_meme env.captionPost = Except.error e) := by
  constructor
  · intro env chat
    cases hf : RandomMeme.fetch_meme_from_reddit env.feed env.feedRng with
    | some url =>
      refine ⟨FeedResult.overlaid url
        (RandomMeme.generate_meme_caption env.captionApi
          (RandomMeme.extract_topic_from_chat env.topicApi chat))
        (RandomMeme.overlay_text_on_image env.overlay url
          (RandomMeme.generate_meme_caption env.captionApi
            (RandomMeme.extract_topic_from_chat env.topicApi chat))), ?_⟩
      simp [RandomMeme.generate_meme_from_chat, hf]
    | none =>
      refine ⟨FeedResult.fetchFailed, ?_⟩
      simp [RandomMeme.generate_meme_from_chat, hf]
  · intro env chat e h
    cases hfetch : ContextMeme.fetch_meme_template env.templateFetch env.templateRng with
    | error e2 =>
      left
      simp [ContextMeme.generate_meme_from_chat, hfetch] at h
      subst h
      rfl
    | ok t =>
      obtain ⟨mid, murl, mname⟩ := t
      cases ht : pyTruthy mid with
      | false =>
        simp [ContextMeme.generate_meme_from_chat, hfetch, ht] at h
      | true =>
        cases hcm : ContextMeme.create_meme env.captionPost with
        | error e2 =>
          right
          simp [ContextMeme.generate_meme_from_chat, hfetch, ht, hcm] at h
          subst h
          rfl
        | ok r =>
          simp [ContextMeme.generate_meme_from_chat, hfetch, ht, hcm] at h

theorem pipeline_exception_propagation_witness :
    ContextMeme.fetch_meme_template envCatalogRaise.templateFetch
        envCatalogRaise.templateRng = Except.error PyExc.transport ∨
    ContextMeme.create_meme envCatalogRaise.captionPost = Except.error PyExc.transport :=
  pipeline_exception_propagation.2 envCatalogRaise "hello" PyExc.transport rfl
